import Mathlib

/-!
Shallow embedding of `src/smrlib/structured_logger.py` (the structured
logging facility: LogItem formatting, StructuredLogger dispatch,
LoggerContext lifecycle), with theorems settling the spec claims.

Python strings are Lean `String`; Python dicts are association lists in
insertion order; exceptions raised and caught inside the formatters are an
`Except` with the three exception kinds the source names in its
`except (TypeError, ValueError, AttributeError)` clauses.
-/

namespace SL

/-- The six log tiers of `LogLevel` (IntEnum) in the source. -/
inductive LogLevel where
  | success
  | error
  | warning
  | info
  | notice
  | debug
deriving DecidableEq, Repr

/-- Numeric value of each tier: SUCCESS=0, ERROR=1, WARNING=5, INFO=10,
NOTICE=15, DEBUG=100. -/
def LogLevel.toNat : LogLevel → Nat
  | .success => 0
  | .error => 1
  | .warning => 5
  | .info => 10
  | .notice => 15
  | .debug => 100

/-- `_FILE_LOG_LEVEL_MAP`: the coarser stdlib level used for file records
(logging.DEBUG=10, INFO=20, WARNING=30, ERROR=40). -/
def fileLogLevel : LogLevel → Nat
  | .success => 20
  | .notice => 20
  | .info => 20
  | .warning => 30
  | .error => 40
  | .debug => 10

/-- A value appearing inside a context mapping. `pyStr` below is its
Python `str()` rendering. -/
inductive CtxValue where
  | vstr (s : String)
  | vint (n : Int)
  | vbool (b : Bool)
  | vnone
deriving DecidableEq, Repr

/-- Python `str()` of a context value. -/
def pyStr : CtxValue → String
  | .vstr s => s
  | .vint n => toString n
  | .vbool b => if b then "True" else "False"
  | .vnone => "None"

/-- The exception kinds that can arise while interpreting a context as
key/value pairs; exactly the kinds listed in the source's except clauses. -/
inductive PyErr where
  | typeError
  | valueError
  | attributeError
deriving DecidableEq, Repr

/-- The shapes a `LogItem.context` can take in the embedding:
`none` (Python None), a scalar (str/int — the `isinstance` branch),
a dict (ordered entries), a non-dict iterable of key/value pairs
(e.g. `dict_items`), an iterable whose key/value interpretation raises
(`badIter` carries its `str()` and the exception kind), or an opaque
non-iterable object (`obj` carries its `str()`). -/
inductive Context where
  | none
  | scalarStr (s : String)
  | scalarInt (n : Int)
  | dict (entries : List (String × CtxValue))
  | pairsIter (entries : List (String × CtxValue))
  | badIter (repr_ : String) (err : PyErr)
  | obj (repr_ : String)
deriving DecidableEq, Repr

/-- `isinstance(context, dict) or hasattr(context, "__iter__")`. -/
def Context.isDictOrIter : Context → Bool
  | .dict _ => true
  | .pairsIter _ => true
  | .badIter _ _ => true
  | _ => false

/-- `str(context)` for the shapes on which the source can reach the final
fallback line. (For dict/pairs shapes the structured path always succeeds,
so their `str()` is never consulted; any total choice is sound there.) -/
def Context.pyRepr : Context → String
  | .none => "None"
  | .scalarStr s => s
  | .scalarInt n => toString n
  | .dict _ => ""
  | .pairsIter _ => ""
  | .badIter r _ => r
  | .obj r => r

/-- The `LogItem` dataclass: message, context, level. -/
structure LogItem where
  message : String
  context : Context
  level : LogLevel
deriving DecidableEq, Repr

/-- `LogItem.success` factory. -/
def LogItem.success (message : String) (context : Context) : LogItem :=
  ⟨message, context, .success⟩

/-- `LogItem.error` factory. -/
def LogItem.error (message : String) (context : Context) : LogItem :=
  ⟨message, context, .error⟩

/-- `LogItem.warning` factory. -/
def LogItem.warning (message : String) (context : Context) : LogItem :=
  ⟨message, context, .warning⟩

/-- `LogItem.info` factory. -/
def LogItem.info (message : String) (context : Context) : LogItem :=
  ⟨message, context, .info⟩

/-- `LogItem.notice` factory. -/
def LogItem.notice (message : String) (context : Context) : LogItem :=
  ⟨message, context, .notice⟩

/-- `LogItem.debug` factory. -/
def LogItem.debug (message : String) (context : Context) : LogItem :=
  ⟨message, context, .debug⟩

/-- The inner `_format_value` helper shared by both dict-like formatters:
string values get single quotes, everything else its `str()`. -/
def formatValue : CtxValue → String
  | .vstr s => "'" ++ s ++ "'"
  | v => pyStr v

/-- `LogItem._format_dict_like_console(title, data)` on the entry list:
zero entries yield the title alone; one entry a single line
`title: key=value`; several entries a multi-line block. -/
def formatDictLikeConsole (title : String) (entries : List (String × CtxValue)) : String :=
  match entries with
  | [] => title
  | [(k, v)] => title ++ ": " ++ k ++ "=" ++ formatValue v
  | _ =>
    String.intercalate "\n"
      ((title ++ ":") :: entries.map (fun p => "  - " ++ p.1 ++ "=" ++ formatValue p.2))

/-- `LogItem._serialise_dict_like(data)`: comma-and-space-joined
`key=value` pairs. -/
def serialiseDictLike (entries : List (String × CtxValue)) : String :=
  String.intercalate ", " (entries.map (fun p => p.1 ++ "=" ++ formatValue p.2))

/-- The body of the `try` block in `format_console`: interpreting the
context as key/value pairs and formatting it, raising on a bad iterable. -/
def consoleStructured (title : String) : Context → Except PyErr String
  | .dict es => .ok (formatDictLikeConsole title es)
  | .pairsIter es => .ok (formatDictLikeConsole title es)
  | .badIter _ e => .error e
  | _ => .error .typeError

/-- The body of the `try` block in `format_file`. -/
def fileStructured : Context → Except PyErr String
  | .dict es => .ok (serialiseDictLike es)
  | .pairsIter es => .ok (serialiseDictLike es)
  | .badIter _ e => .error e
  | _ => .error .typeError

/-- `LogItem.format_console` with the source's exception flow made
explicit: the `except (TypeError, ValueError, AttributeError)` clause
catches each of the three kinds and falls through to the final
`message: str(context)` line. -/
def format_consoleE (item : LogItem) : Except PyErr String :=
  match item.context with
  | .none => .ok item.message
  | .scalarStr s => .ok (item.message ++ ": " ++ s)
  | .scalarInt n => .ok (item.message ++ ": " ++ toString n)
  | c =>
    if c.isDictOrIter then
      match consoleStructured item.message c with
      | .ok s => .ok s
      | .error .typeError => .ok (item.message ++ ": " ++ c.pyRepr)
      | .error .valueError => .ok (item.message ++ ": " ++ c.pyRepr)
      | .error .attributeError => .ok (item.message ++ ": " ++ c.pyRepr)
    else
      .ok (item.message ++ ": " ++ c.pyRepr)

/-- `LogItem.format_file` with the source's exception flow made explicit. -/
def format_fileE (item : LogItem) : Except PyErr String :=
  match item.context with
  | .none => .ok item.message
  | .scalarStr s => .ok (item.message ++ ", " ++ s)
  | .scalarInt n => .ok (item.message ++ ", " ++ toString n)
  | c =>
    if c.isDictOrIter then
      match fileStructured c with
      | .ok s => .ok (item.message ++ ", " ++ s)
      | .error .typeError => .ok (item.message ++ ", " ++ c.pyRepr)
      | .error .valueError => .ok (item.message ++ ", " ++ c.pyRepr)
      | .error .attributeError => .ok (item.message ++ ", " ++ c.pyRepr)
    else
      .ok (item.message ++ ", " ++ c.pyRepr)

/-- Total rendering of `LogItem.format_console` (the value the caller
receives: the function never propagates an exception). -/
def format_console (item : LogItem) : String :=
  match item.context with
  | .none => item.message
  | .scalarStr s => item.message ++ ": " ++ s
  | .scalarInt n => item.message ++ ": " ++ toString n
  | .dict es => formatDictLikeConsole item.message es
  | .pairsIter es => formatDictLikeConsole item.message es
  | .badIter r _ => item.message ++ ": " ++ r
  | .obj r => item.message ++ ": " ++ r

/-- Total rendering of `LogItem.format_file`. -/
def format_file (item : LogItem) : String :=
  match item.context with
  | .none => item.message
  | .scalarStr s => item.message ++ ", " ++ s
  | .scalarInt n => item.message ++ ", " ++ toString n
  | .dict es => item.message ++ ", " ++ serialiseDictLike es
  | .pairsIter es => item.message ++ ", " ++ serialiseDictLike es
  | .badIter r _ => item.message ++ ", " ++ r
  | .obj r => item.message ++ ", " ++ r

/-- The `LogConfig` dataclass fields the dispatch path reads
(`log_file_max_bytes` / `log_file_backup_count` / `log_file_encoding`
only parametrize the rotating handler and never affect which entries are
emitted, so they are omitted). Defaults: `level = logging.INFO = 20`,
no log file, `dry_run = False`. -/
structure LogConfig where
  level : Int
  log_file : Option String
  dry_run : Bool
deriving DecidableEq, Repr

/-- The default `LogConfig()`. -/
def LogConfig.default : LogConfig := ⟨20, Option.none, false⟩

/-- colorama colour codes used by `_log`. -/
def foreGREEN : String := "\x1b[32m"

/-- colorama red. -/
def foreRED : String := "\x1b[31m"

/-- colorama yellow. -/
def foreYELLOW : String := "\x1b[33m"

/-- colorama blue. -/
def foreBLUE : String := "\x1b[34m"

/-- colorama `Style.RESET_ALL`. -/
def styleRESET : String := "\x1b[0m"

/-- The emoji marker chosen in `_log`'s match statement per tier. -/
def emojiFor : LogLevel → String
  | .success => "✅"
  | .notice => "ℹ️"
  | .error => "❌"
  | .warning => "⚠️"
  | .info => ""
  | .debug => "🛠️"

/-- The colour chosen in `_log`'s match statement per tier. -/
def colorFor : LogLevel → String
  | .success => foreGREEN
  | .notice => ""
  | .error => foreRED
  | .warning => foreYELLOW
  | .info => ""
  | .debug => foreBLUE

/-- The observable effects of one dispatch: the console lines printed and
the `(stdlib level, message)` records handed to the file channel. -/
structure Output where
  console : List String
  file : List (Nat × String)
deriving DecidableEq, Repr

/-- No output (a suppressed call). -/
def Output.empty : Output := ⟨[], []⟩

/-- Sequential composition of two dispatches' effects. -/
def Output.append (a b : Output) : Output :=
  ⟨a.console ++ b.console, a.file ++ b.file⟩

/-- `self._message_prefix`: `"[DRY-RUN] "` when `dry_run`, else empty;
models `_add_prefix` / the console prepend. -/
def dryRunMarker (cfg : LogConfig) : String :=
  if cfg.dry_run then "[DRY-RUN] " else ""

/-- `StructuredLogger._should_log(threshold)`: nothing passes when the
resolved level is `<= 0`; otherwise the threshold must be `<=` the level. -/
def should_log (cfg : LogConfig) (threshold : Int) : Bool :=
  if cfg.level ≤ 0 then false else decide (threshold ≤ cfg.level)

/-- `StructuredLogger._output_console`: one printed line
`color + emoji + " " + marker + format_console + RESET`. -/
def output_console (cfg : LogConfig) (item : LogItem) : String :=
  colorFor item.level ++ emojiFor item.level ++ " " ++
    dryRunMarker cfg ++ format_console item ++ styleRESET

/-- `StructuredLogger._log(log_item, console=...)`: the console branch
prints for every tier (the match covers all six); the file branch fires
exactly when a log file is configured. -/
def log_dispatch (cfg : LogConfig) (item : LogItem) (console : Bool) : Output :=
  { console := if console then [output_console cfg item] else []
    file :=
      match cfg.log_file with
      | some _ => [(fileLogLevel item.level, dryRunMarker cfg ++ format_file item)]
      | Option.none => [] }

/-- `StructuredLogger.log`: console and file. -/
def log (cfg : LogConfig) (item : LogItem) : Output :=
  log_dispatch cfg item true

/-- `StructuredLogger.info`. -/
def info (cfg : LogConfig) (title : String) (data : Context) : Output :=
  log cfg (LogItem.info title data)

/-- `StructuredLogger.notice`. -/
def notice (cfg : LogConfig) (title : String) (data : Context) : Output :=
  log cfg (LogItem.notice title data)

/-- `StructuredLogger.warning`. -/
def warning (cfg : LogConfig) (title : String) (data : Context) : Output :=
  log cfg (LogItem.warning title data)

/-- `StructuredLogger.error`. -/
def error (cfg : LogConfig) (title : String) (data : Context) : Output :=
  log cfg (LogItem.error title data)

/-- `StructuredLogger.success`. -/
def success (cfg : LogConfig) (title : String) (data : Context) : Output :=
  log cfg (LogItem.success title data)

/-- `StructuredLogger.debug`: returns early (no output) unless
`_should_log(100)` holds. -/
def debug (cfg : LogConfig) (title : String) (data : Context) : Output :=
  if should_log cfg 100 then log cfg ⟨title, data, .debug⟩ else Output.empty

/-- `StructuredLogger.__init__`: resolve `config.log_file` from
`log_file_path` when unset, then emit the bootstrap calls — an `info`
only when `log_file_path` is None, and a `debug` (subject to the debug
gate). Returns the resolved config and the emitted output. Directory
creation / path-validation I/O is outside the dispatch model. -/
def initLogger (name : String) (log_file_path : Option String)
    (config : Option LogConfig) : LogConfig × Output :=
  let cfg0 := config.getD LogConfig.default
  let cfg :=
    match cfg0.log_file, log_file_path with
    | Option.none, some p => { cfg0 with log_file := some p }
    | _, _ => cfg0
  let bootInfo :=
    match log_file_path with
    | Option.none =>
      info cfg "Logger initialised without log file" (.dict [("name", .vstr name)])
    | some _ => Output.empty
  let logFileStr : CtxValue :=
    match cfg.log_file with
    | some p => .vstr p
    | Option.none => .vnone
  let bootDebug :=
    debug cfg "Logger initialised"
      (.dict [("level", .vint cfg.level), ("log_file", logFileStr),
              ("dry_run", .vbool cfg.dry_run)])
  (cfg, Output.append bootInfo bootDebug)

/-- Python `str.lower()` on the character sequence (ASCII case mapping,
which covers every input the claims touch). -/
def pyLower (s : String) : String :=
  ⟨s.data.map Char.toLower⟩

/-- Python `str.strip()`: drop leading and trailing whitespace. -/
def pyStrip (s : String) : String :=
  ⟨((s.data.dropWhile Char.isWhitespace).reverse.dropWhile Char.isWhitespace).reverse⟩

/-- The pure core of `StructuredLogger.confirm`: given the raw line read
from input and the `default` flag, the boolean returned. The source
computes `response = input(...).strip().lower()`, takes `default` on an
empty response, and otherwise tests membership in `("y", "Y")`. -/
def confirm_result (raw : String) (dflt : Bool) : Bool :=
  let response := pyLower (pyStrip raw)
  if response = "" then dflt
  else response == "y" || response == "Y"

/-- State touched by `close()`: the underlying logger's handler list and
this instance's `_handlers`. Handlers are identified by id. -/
structure CloseState where
  attached : List Nat
  own : List Nat
deriving DecidableEq, Repr

/-- `StructuredLogger.close()`: flush, close and detach every handler in
`_handlers`, then clear `_handlers`. Returns the new state and the list
of handler ids released (flushed/closed) by this call. -/
def close (s : CloseState) : CloseState × List Nat :=
  (⟨s.own.foldl (fun att h => att.erase h) s.attached, []⟩, s.own)

/-- The error message of `LoggerContext.get_logger` on an uninitialised
context. -/
def lcErrMsg : String :=
  "LoggerContext not initialized. Call LoggerContext.initialize() first."

/-- `LoggerContext._logger` state: the stored logger instance (by
identity), or nothing. -/
def LCState : Type := Option Nat

/-- `LoggerContext.initialize(logger=None)`: store the supplied instance,
or construct (and store) a fresh default one; return what was stored. -/
def initialise (supplied : Option Nat) (fresh : Nat) (_s : LCState) : LCState × Nat :=
  match supplied with
  | Option.none => (some fresh, fresh)
  | some l => (some l, l)

/-- `LoggerContext.get_logger()`: runtime error when unset, else the
stored instance. -/
def get_logger : LCState → Except String Nat
  | Option.none => .error lcErrMsg
  | some l => .ok l

/-- `LoggerContext.reset()`: clear the stored reference. -/
def reset (_s : LCState) : LCState := Option.none

/-- C5: for a mapping context, `format_console` returns the message alone
on zero entries; on exactly one entry the single line
`message: key=value` with string values single-quoted and other values
in their natural string form; on more than one entry a multi-line block
headed by `message:` with one indented `  - key=value` line per entry in
iteration order. -/
theorem C5_console_mapping (msg : String) (lvl : LogLevel) :
    format_console ⟨msg, .dict [], lvl⟩ = msg ∧
    (∀ k s, format_console ⟨msg, .dict [(k, .vstr s)], lvl⟩ =
      msg ++ ": " ++ k ++ "=" ++ ("'" ++ s ++ "'")) ∧
    (∀ k n, format_console ⟨msg, .dict [(k, CtxValue.vint n)], lvl⟩ =
      msg ++ ": " ++ k ++ "=" ++ toString n) ∧
    (∀ e1 e2 rest, format_console ⟨msg, .dict (e1 :: e2 :: rest), lvl⟩ =
      String.intercalate "\n"
        ((msg ++ ":") :: (e1 :: e2 :: rest).map
          (fun p => "  - " ++ p.1 ++ "=" ++ formatValue p.2))) := by
  refine ⟨rfl, fun k s => rfl, fun k n => rfl, fun e1 e2 rest => rfl⟩

/-- C6: for a mapping context with at least one entry, `format_file`
returns one line: the message, then a comma and space, then the
`key=value` pairs joined by comma-space in iteration order. -/
theorem C6_file_mapping (msg : String) (lvl : LogLevel)
    (e : String × CtxValue) (rest : List (String × CtxValue)) :
    format_file ⟨msg, .dict (e :: rest), lvl⟩ =
      msg ++ ", " ++ String.intercalate ", "
        ((e :: rest).map (fun p => p.1 ++ "=" ++ formatValue p.2)) := rfl

/-- C6 instance at a concrete two-entry mapping. -/
theorem C6_file_mapping_witness :
    format_file ⟨"Low disk", .dict [("free_mb", .vint 50), ("path", .vstr "/tmp")], .warning⟩ =
      "Low disk, free_mb=50, path='/tmp'" := by
  have h := C6_file_mapping "Low disk" .warning ("free_mb", .vint 50) [("path", .vstr "/tmp")]
  rw [h]
  rfl

/-- C7: the formatters never propagate an exception: the
exception-explicit embeddings always return a value (every kind the
structured interpretation can raise is caught), and on a context whose
key/value interpretation fails the result is the scalar-style fallback
rendering of the context's string conversion. -/
theorem C7_format_total (item : LogItem) :
    format_consoleE item = Except.ok (format_console item) ∧
    format_fileE item = Except.ok (format_file item) ∧
    (∀ r err, format_consoleE ⟨item.message, .badIter r err, item.level⟩ =
        Except.ok (item.message ++ ": " ++ r) ∧
      format_fileE ⟨item.message, .badIter r err, item.level⟩ =
        Except.ok (item.message ++ ", " ++ r)) := by
  obtain ⟨m, c, l⟩ := item
  refine ⟨?_, ?_, ?_⟩
  · cases c with
    | badIter r err => cases err <;> rfl
    | none => rfl
    | scalarStr s => rfl
    | scalarInt n => rfl
    | dict es => rfl
    | pairsIter es => rfl
    | obj r => rfl
  · cases c with
    | badIter r err => cases err <;> rfl
    | none => rfl
    | scalarStr s => rfl
    | scalarInt n => rfl
    | dict es => rfl
    | pairsIter es => rfl
    | obj r => rfl
  · intro r err
    cases err <;> exact ⟨rfl, rfl⟩

/-- C10: on an empty mapping, `format_file` keeps the trailing comma and
space (the serialised pair list is empty, appended after the
unconditional separator), while `format_console` returns the message
alone. -/
theorem C10_empty_mapping (msg : String) (lvl : LogLevel) :
    format_file ⟨msg, .dict [], lvl⟩ = msg ++ ", " ∧
    format_console ⟨msg, .dict [], lvl⟩ = msg := by
  constructor
  · show msg ++ ", " ++ serialiseDictLike [] = msg ++ ", "
    show msg ++ ", " ++ "" = msg ++ ", "
    exact String.append_empty _
  · rfl

/-- C1: when the configured level is below 100 a debug call is fully
suppressed (no console line, no file record); success, error, warning,
info and notice each print exactly one console line for every level, and
write exactly one file record whenever a log file is configured. -/
theorem C1_debug_gated_others_unconditional (cfg : LogConfig) (title : String) (data : Context) :
    (cfg.level < 100 → debug cfg title data = Output.empty) ∧
    (success cfg title data).console.length = 1 ∧
    (error cfg title data).console.length = 1 ∧
    (warning cfg title data).console.length = 1 ∧
    (info cfg title data).console.length = 1 ∧
    (notice cfg title data).console.length = 1 ∧
    (∀ f, cfg.log_file = some f →
      (success cfg title data).file.length = 1 ∧
      (error cfg title data).file.length = 1 ∧
      (warning cfg title data).file.length = 1 ∧
      (info cfg title data).file.length = 1 ∧
      (notice cfg title data).file.length = 1) := by
  refine ⟨?_, rfl, rfl, rfl, rfl, rfl, ?_⟩
  · intro h
    have hgate : should_log cfg 100 = false := by
      unfold should_log
      split
      · rfl
      · simp only [decide_eq_false_iff_not]
        omega
    simp [debug, hgate]
  · intro f hf
    refine ⟨?_, ?_, ?_, ?_, ?_⟩ <;>
      simp [success, error, warning, info, notice, log, log_dispatch, hf]

/-- C1 witness at level 50 with a log file configured. -/
theorem C1_witness :
    debug ⟨50, some "app.log", false⟩ "t" Context.none = Output.empty ∧
    (info ⟨50, some "app.log", false⟩ "t" Context.none).file.length = 1 := by
  have h := C1_debug_gated_others_unconditional ⟨50, some "app.log", false⟩ "t" Context.none
  exact ⟨h.1 (by decide), (h.2.2.2.2.2.2 "app.log" rfl).2.2.2.1⟩

/-- C3 counterexample: at level 0 an info call still prints a console
line, so the claim that level ≤ 0 silences every level is false. -/
theorem C3_counterexample :
    info ⟨0, Option.none, false⟩ "Task started" Context.none ≠ Output.empty := by
  decide

/-- C3 amended: when the configured level is ≤ 0 only the debug tier is
silenced; success, error, warning, info and notice each still print one
console line. -/
theorem C3_only_debug_gated (cfg : LogConfig) (title : String) (data : Context)
    (h : cfg.level ≤ 0) :
    debug cfg title data = Output.empty ∧
    (success cfg title data).console.length = 1 ∧
    (error cfg title data).console.length = 1 ∧
    (warning cfg title data).console.length = 1 ∧
    (info cfg title data).console.length = 1 ∧
    (notice cfg title data).console.length = 1 := by
  have hgate : should_log cfg 100 = false := by
    unfold should_log
    split
    · rfl
    · omega
  exact ⟨by simp [debug, hgate], rfl, rfl, rfl, rfl, rfl⟩

/-- C3 amended-claim witness at level 0. -/
theorem C3_witness :
    debug ⟨0, Option.none, false⟩ "t" Context.none = Output.empty ∧
    (info ⟨0, Option.none, false⟩ "t" Context.none).console.length = 1 := by
  have h := C3_only_debug_gated ⟨0, Option.none, false⟩ "t" Context.none (by decide)
  exact ⟨h.1, h.2.2.2.2.1⟩

/-- C4 counterexample: a default construction (no log file path, default
config with level 20) emits one bootstrap entry, not two — the debug
bootstrap call is gated off. -/
theorem C4_counterexample :
    (initLogger "filetoolkit" Option.none Option.none).2.console.length ≠ 2 := by
  decide

/-- C4 amended: construction emits the without-log-file info entry exactly
when no path is given, plus the debug bootstrap entry exactly when the
configured level passes the debug gate, so from zero to two entries. -/
theorem C4_bootstrap_count (name : String) (path : Option String) (config : Option LogConfig) :
    (initLogger name path config).2.console.length =
      (if path.isNone then 1 else 0) +
      (if should_log (config.getD LogConfig.default) 100 then 1 else 0) := by
  unfold initLogger
  have hlvl :
      ∀ cfg0 : LogConfig, ∀ p,
        should_log { cfg0 with log_file := some p } 100 = should_log cfg0 100 := by
    intro cfg0 p
    rfl
  cases path with
  | none =>
    cases h : (config.getD LogConfig.default).log_file <;>
      simp [Output.append, info, debug, log, log_dispatch, Output.empty, h] <;>
      split <;> rfl
  | some p =>
    cases h : (config.getD LogConfig.default).log_file <;>
      simp [Output.append, info, debug, log, log_dispatch, Output.empty, h, hlvl] <;>
      split <;> rfl

/-- C2 counterexample: "yes" starts with the character y, yet confirm
resolves it to False (the stripped, lowercased response is tested for
equality with "y"/"Y", not for a leading "y"). -/
theorem C2_counterexample :
    "yes".data.head? = some 'y' ∧ confirm_result "yes" false = false := by
  exact ⟨rfl, rfl⟩

/-- C2 amended: an empty (after stripping) response resolves to the
default; a non-empty response resolves true exactly when its stripped,
lowercased form is the whole word "y" (or "Y", vacuous after
lowercasing) — a longer response such as "yes" resolves false. -/
theorem C2_confirm_exact_y (raw : String) (dflt : Bool) :
    (pyLower (pyStrip raw) = "" → confirm_result raw dflt = dflt) ∧
    (pyLower (pyStrip raw) ≠ "" →
      (confirm_result raw dflt = true ↔
        (pyLower (pyStrip raw) = "y" ∨ pyLower (pyStrip raw) = "Y"))) := by
  unfold confirm_result
  constructor
  · intro h
    simp [h]
  · intro h
    simp [h]

/-- C2 amended-claim witness: " Y " (whitespace and case ignored)
resolves true even with default false. -/
theorem C2_witness : confirm_result " Y " false = true := by
  have h := (C2_confirm_exact_y " Y " false).2 (by decide)
  exact h.mpr (Or.inl (by decide))

/-- C8: after any `close()` the installed-handler list is empty, and a
second `close()` releases no handler and leaves the state unchanged. -/
theorem C8_close_idempotent (s : CloseState) :
    (close s).1.own = [] ∧
    (close (close s).1).2 = [] ∧
    (close (close s).1).1 = (close s).1 := by
  exact ⟨rfl, rfl, rfl⟩

/-- C9: `get_logger` on an uninitialised (or reset) context fails with
the runtime error; after `initialise` the stored state holds exactly the
logger `initialise` returned, and `get_logger` keeps returning that
identical instance. -/
theorem C9_context_lifecycle :
    get_logger Option.none = Except.error lcErrMsg ∧
    (∀ s : LCState, get_logger (reset s) = Except.error lcErrMsg) ∧
    (∀ supplied fresh s,
      (initialise supplied fresh s).1 = some (initialise supplied fresh s).2 ∧
      get_logger (initialise supplied fresh s).1 =
        Except.ok (initialise supplied fresh s).2) := by
  refine ⟨rfl, fun s => rfl, fun supplied fresh s => ?_⟩
  cases supplied <;> exact ⟨rfl, rfl⟩

end SL
